import Mathlib

/-!
Shallow embedding of the batch PDF-processing pipeline of
`src/App.tsx` (with the data model of `src/types.ts`), together with
theorems settling the specification claims about it.

External collaborators (the AI classifier and the four field
extractors, `src/services/geminiService.ts`) are modelled as oracle
outcomes supplied per file: the pipeline only observes which tag the
classifier returned, the extracted record on success, or the raised
error message on failure, so a `FileOutcome` value captures exactly
the information the pipeline consumes.
-/

namespace PdfPipeline

/-- Document type tags, from the `DocumentType` union in `src/App.tsx`
line 19 (the `unknown` classifier answer is handled separately, as the
pipeline never stores it). -/
inductive DocumentType where
  | workOrder
  | supplyRequest
  | uninstallation
  | installation
deriving DecidableEq, Repr

/-- Raw extraction result for a work order, from `ExtractedWorkOrderData`
in `src/types.ts`. -/
structure ExtractedWorkOrderData where
  orden : String
  serie : String
  fechaRegistro : String
  categoria : String
  descripcion : String
  fechaCierre : String
deriving DecidableEq, Repr

/-- Raw extraction result for a supply request, from `ExtractedSupplyData`
in `src/types.ts`. -/
structure ExtractedSupplyData where
  orden : String
  serie : String
  fechaRegistro : String
  contadorBN : String
  fechaEntrega : String
deriving DecidableEq, Repr

/-- Raw extraction result for an uninstallation document, from
`ExtractedUninstallationData` in `src/types.ts`. -/
structure ExtractedUninstallationData where
  folio : String
  serie : String
  fecha : String
  contadorBN : String
  contadorColor : String
  contadorEscaner : String
  comentarios : String
deriving DecidableEq, Repr

/-- Raw extraction result for an installation document, from
`ExtractedInstallationData` in `src/types.ts`. -/
structure ExtractedInstallationData where
  folio : String
  serie : String
  fecha : String
  contadorBN : String
  comentarios : String
deriving DecidableEq, Repr

/-- Processed work order, from `WorkOrderDocument` in `src/types.ts`
(the `type` discriminator becomes the constructor tag of
`AnyProcessedDocument`). -/
structure WorkOrderDocument where
  orden : String
  archivo : String
  serie : String
  fechaRegistro : String
  categoria : String
  descripcion : String
  fechaCierre : String
  originalFileName : String
  error : Option String := none
deriving DecidableEq, Repr

/-- Processed supply request, from `SupplyRequestDocument` in
`src/types.ts`. -/
structure SupplyRequestDocument where
  orden : String
  archivo : String
  serie : String
  fechaRegistro : String
  contador : String
  fechaEntrega : String
  originalFileName : String
  error : Option String := none
deriving DecidableEq, Repr

/-- Processed uninstallation document, from `UninstallationDocument` in
`src/types.ts`. -/
structure UninstallationDocument where
  orden : String
  archivo : String
  serie : String
  fecha : String
  contadorBN : String
  contadorColor : String
  contadorEscaner : String
  link : String
  comentarios : String
  originalFileName : String
  error : Option String := none
deriving DecidableEq, Repr

/-- Processed installation document, from `InstallationDocument` in
`src/types.ts`. -/
structure InstallationDocument where
  orden : String
  archivo : String
  serie : String
  fecha : String
  contadorBN : String
  link : String
  comentarios : String
  originalFileName : String
  error : Option String := none
deriving DecidableEq, Repr

/-- Tagged union of processed documents, from `AnyProcessedDocument` in
`src/types.ts`. -/
inductive AnyProcessedDocument where
  | workOrder (d : WorkOrderDocument)
  | supplyRequest (d : SupplyRequestDocument)
  | uninstallation (d : UninstallationDocument)
  | installation (d : InstallationDocument)
deriving DecidableEq, Repr

namespace AnyProcessedDocument

/-- Discriminator tag of a processed document (the `type` field of the
TypeScript union). -/
def type : AnyProcessedDocument → DocumentType
  | .workOrder _ => .workOrder
  | .supplyRequest _ => .supplyRequest
  | .uninstallation _ => .uninstallation
  | .installation _ => .installation

/-- Common field `orden` (every variant of the union declares it). -/
def orden : AnyProcessedDocument → String
  | .workOrder d => d.orden
  | .supplyRequest d => d.orden
  | .uninstallation d => d.orden
  | .installation d => d.orden

/-- Common field `archivo` (derived export filename). -/
def archivo : AnyProcessedDocument → String
  | .workOrder d => d.archivo
  | .supplyRequest d => d.archivo
  | .uninstallation d => d.archivo
  | .installation d => d.archivo

/-- Common field `serie`. -/
def serie : AnyProcessedDocument → String
  | .workOrder d => d.serie
  | .supplyRequest d => d.serie
  | .uninstallation d => d.serie
  | .installation d => d.serie

/-- Common field `originalFileName` (stable back-reference to the
uploaded file). -/
def originalFileName : AnyProcessedDocument → String
  | .workOrder d => d.originalFileName
  | .supplyRequest d => d.originalFileName
  | .uninstallation d => d.originalFileName
  | .installation d => d.originalFileName

/-- Common optional field `error`. -/
def error : AnyProcessedDocument → Option String
  | .workOrder d => d.error
  | .supplyRequest d => d.error
  | .uninstallation d => d.error
  | .installation d => d.error

/-- Field `link`, present only on the uninstallation and installation
variants. -/
def linkOf : AnyProcessedDocument → Option String
  | .workOrder _ => none
  | .supplyRequest _ => none
  | .uninstallation d => some d.link
  | .installation d => some d.link

/-- Date string the terminal sort reads, embedding the access
`'fechaRegistro' in a ? a.fechaRegistro : ('fecha' in a ? a.fecha : '')`
of `src/App.tsx` lines 230-231: work orders and supply requests expose
`fechaRegistro`, the two remaining variants expose `fecha`, so the final
`''` branch is unreachable. -/
def dateField : AnyProcessedDocument → String
  | .workOrder d => d.fechaRegistro
  | .supplyRequest d => d.fechaRegistro
  | .uninstallation d => d.fecha
  | .installation d => d.fecha

/-- Overwrite the `error` field of a document, embedding
`const failedDoc = { ...updatedData[index] }; failedDoc.error = errorMessage`
of `src/App.tsx` lines 342-343. -/
def setError (msg : String) : AnyProcessedDocument → AnyProcessedDocument
  | .workOrder d => .workOrder { d with error := some msg }
  | .supplyRequest d => .supplyRequest { d with error := some msg }
  | .uninstallation d => .uninstallation { d with error := some msg }
  | .installation d => .installation { d with error := some msg }

end AnyProcessedDocument

/-! ## Sortable-date parsing, `parseSortableDate` of `src/App.tsx` lines 26-52 -/

/-- Numeric value of a two-digit character pair. -/
def twoDigit (a b : Char) : Nat :=
  10 * (a.toNat - 48) + (b.toNat - 48)

/-- Gregorian leap-year test, as used by the JavaScript `Date` object. -/
def isLeapYear (y : Nat) : Bool :=
  y % 4 == 0 && (y % 100 != 0 || y % 400 == 0)

/-- Number of days of month `m` (1-12) of year `y`. -/
def daysInMonth (y m : Nat) : Nat :=
  if m == 2 then (if isLeapYear y then 29 else 28)
  else if m == 4 || m == 6 || m == 9 || m == 11 then 30
  else 31

/-- Validity of a calendar date, as decided by the JavaScript engine when
`new Date("YYYY-MM-DD")` is evaluated: the ISO string yields a valid time
value exactly when the month is 1-12 and the day fits the month. -/
def isValidDate (y m d : Nat) : Bool :=
  1 ≤ m && m ≤ 12 && 1 ≤ d && d ≤ daysInMonth y m

/-- Number of days of year `y`. -/
def daysInYear (y : Nat) : Nat :=
  if isLeapYear y then 366 else 365

/-- Days from 1970-01-01 to the start of year `y` (`y ≥ 1970`). -/
def daysBeforeYear (y : Nat) : Nat :=
  ((List.range (y - 1970)).map (fun i => daysInYear (1970 + i))).sum

/-- Days from the start of year `y` to the start of its month `m`. -/
def daysBeforeMonth (y m : Nat) : Nat :=
  ((List.range (m - 1)).map (fun i => daysInMonth y (i + 1))).sum

/-- Milliseconds-since-epoch value `new Date("YYYY-MM-DD").getTime()`
produces for a valid ISO date (UTC midnight of that day). -/
def utcTimestamp (y m d : Nat) : Nat :=
  86400000 * (daysBeforeYear y + daysBeforeMonth y m + (d - 1))

/-- Match a string of shape `ddSddSdd` where `d` is a decimal digit and
`S` is the separator `sep`: this is the test
`/^\d{2}\/\d{2}\/\d{2}$/.test(s)` (resp. with `-`) followed by
`s.split(sep)` of `src/App.tsx` lines 30-31 and 41-42; the regex
guarantees the split yields exactly three two-digit parts, returned
here as their numeric values in order. -/
def matchTwoDigitTriple (sep : Char) (s : String) : Option (Nat × Nat × Nat) :=
  match s.data with
  | [a, b, s1, c, d, s2, e, f] =>
    if s1 == sep && s2 == sep &&
       a.isDigit && b.isDigit && c.isDigit && d.isDigit && e.isDigit && f.isDigit
    then some (twoDigit a b, twoDigit c d, twoDigit e f)
    else none
  | _ => none

/-- Embeds `parseSortableDate` of `src/App.tsx` lines 26-52. The JS
function returns a finite millisecond timestamp or `Infinity`; here
`some t` is the finite timestamp and `none` is `Infinity`. An empty
string returns `Infinity`; a string matching `MM/DD/YY` whose date
`20YY-MM-DD` is valid returns its timestamp, otherwise the function
falls through (a slash-matching string can never match the dash
pattern); a string matching `DD-MM-YY` whose date `20YY-MM-DD` is valid
returns its timestamp; everything else returns `Infinity`. -/
def parseSortableDate (dateString : String) : Option Nat :=
  if dateString = "" then none
  else
    match matchTwoDigitTriple '/' dateString with
    | some (mm, dd, yy) =>
      if isValidDate (2000 + yy) mm dd then some (utcTimestamp (2000 + yy) mm dd)
      else
        match matchTwoDigitTriple '-' dateString with
        | some (dd2, mm2, yy2) =>
          if isValidDate (2000 + yy2) mm2 dd2 then some (utcTimestamp (2000 + yy2) mm2 dd2)
          else none
        | none => none
    | none =>
      match matchTwoDigitTriple '-' dateString with
      | some (dd2, mm2, yy2) =>
        if isValidDate (2000 + yy2) mm2 dd2 then some (utcTimestamp (2000 + yy2) mm2 dd2)
        else none
      | none => none

/-- Sort key of a document: the parsed sortable date of its date field
(`src/App.tsx` lines 230-231). -/
def sortKey (d : AnyProcessedDocument) : Option Nat :=
  parseSortableDate d.dateField

/-- Comparison the JS comparator `dateA - dateB` induces on sort keys
under the stable `Array.prototype.sort`: a finite key precedes a larger
finite key and precedes `Infinity`; two `Infinity` keys produce `NaN`,
which the sort treats as equality, so they are mutually `≤`. -/
def keyLE : Option Nat → Option Nat → Bool
  | none, none => true
  | none, some _ => false
  | some _, none => true
  | some x, some y => x ≤ y

/-- Document comparison used by the terminal sort of `src/App.tsx`
lines 229-233. -/
def docLE (a b : AnyProcessedDocument) : Bool :=
  keyLE (sortKey a) (sortKey b)

/-! ## Batch pipeline, `handleProcessFiles` of `src/App.tsx` lines 126-243 -/

/-- Successful extraction result for one file: which tag the classifier
returned and the record the matching extractor produced. -/
inductive ExtractionData where
  | workOrder (d : ExtractedWorkOrderData)
  | supplyRequest (d : ExtractedSupplyData)
  | uninstallation (d : ExtractedUninstallationData)
  | installation (d : ExtractedInstallationData)
deriving DecidableEq, Repr

/-- Outcome of the external classify/extract calls for one file, the
only information `handleProcessFiles` observes of them: classification
and extraction both succeeded (`classified`), the classifier answered
`unknown` (`unknownType`), or base64 conversion, the classifier or the
extractor raised with the given message (`failure`). -/
inductive FileOutcome where
  | classified (e : ExtractionData)
  | unknownType
  | failure (msg : String)
deriving DecidableEq, Repr

/-- Literal failure marker stored in `orden` of a sentinel record
(`src/App.tsx` line 222). -/
def failureMarker : String := "Fallo de Procesamiento"

/-- Message of the error thrown when the classifier answers `unknown`
during the batch pass (`src/App.tsx` line 149). -/
def unknownTypeMessage : String := "No se pudo reconocer el tipo de documento."

/-- Fallback of `const errorMessage = (err as Error).message || '...'`
(`src/App.tsx` line 221). -/
def fallbackErrorMessage : String := "Ocurrió un error desconocido."

/-- Message of the error thrown when the classifier answers `unknown`
during a retry (`src/App.tsx` line 261). -/
def retryUnknownMessage : String := "No se pudo reconocer el tipo de documento al reintentar."

/-- Fallback of `const errorMessage = (err as Error).message || '...'`
in the retry catch handler (`src/App.tsx` line 339). -/
def retryFallbackMessage : String := "El intento de re-procesar falló."

/-- JavaScript `msg || fallback` on strings: an empty message is falsy
and is replaced by the fallback. -/
def orFallback (msg fallback : String) : String :=
  if msg = "" then fallback else msg

/-- Normalize an extraction result into its processed document, embedding
the `switch(type)` bodies of `src/App.tsx` lines 154-217; the retry
handler (`src/App.tsx` lines 266-330) builds the same records
field-for-field, so both call sites share this definition. `archivo` is
`{identifier}.pdf` when the primary identifier (`orden`, or `folio` for
the last two variants) is non-empty (truthy) and the original filename
otherwise; for the last two variants `link` is set to the same value. -/
def mkDocument (e : ExtractionData) (fileName : String) : AnyProcessedDocument :=
  match e with
  | .workOrder d =>
    .workOrder {
      orden := d.orden
      archivo := if d.orden = "" then fileName else d.orden ++ ".pdf"
      serie := d.serie
      fechaRegistro := d.fechaRegistro
      categoria := d.categoria
      descripcion := d.descripcion
      fechaCierre := d.fechaCierre
      originalFileName := fileName }
  | .supplyRequest d =>
    .supplyRequest {
      orden := d.orden
      archivo := if d.orden = "" then fileName else d.orden ++ ".pdf"
      serie := d.serie
      fechaRegistro := d.fechaRegistro
      contador := d.contadorBN
      fechaEntrega := d.fechaEntrega
      originalFileName := fileName }
  | .uninstallation d =>
    let archivoNombre := if d.folio = "" then fileName else d.folio ++ ".pdf"
    .uninstallation {
      orden := d.folio
      archivo := archivoNombre
      serie := d.serie
      fecha := d.fecha
      contadorBN := d.contadorBN
      contadorColor := d.contadorColor
      contadorEscaner := d.contadorEscaner
      link := archivoNombre
      comentarios := d.comentarios
      originalFileName := fileName }
  | .installation d =>
    let archivoNombre := if d.folio = "" then fileName else d.folio ++ ".pdf"
    .installation {
      orden := d.folio
      archivo := archivoNombre
      serie := d.serie
      fecha := d.fecha
      contadorBN := d.contadorBN
      link := archivoNombre
      comentarios := d.comentarios
      originalFileName := fileName }

/-- Primary identifier of an extraction result: `orden` for work orders
and supply requests, `folio` for uninstallations and installations. -/
def identifierOf : ExtractionData → String
  | .workOrder d => d.orden
  | .supplyRequest d => d.orden
  | .uninstallation d => d.folio
  | .installation d => d.folio

/-- Sentinel failure record appended by the catch handler of the batch
loop, `src/App.tsx` line 222, with the `|| fallback` of line 221 already
applied to the message. -/
def mkFailureDoc (fileName errorMessage : String) : AnyProcessedDocument :=
  .workOrder {
    orden := failureMarker
    archivo := fileName
    serie := "Error"
    fechaRegistro := ""
    categoria := "Error"
    descripcion := "Error"
    fechaCierre := ""
    originalFileName := fileName
    error := some errorMessage }

/-- Processing of one file of the batch loop body, `src/App.tsx` lines
144-223: a classified file is normalized into its document; an
`unknown` classification throws and is caught, as is any raised error,
and the catch handler appends the sentinel record carrying the
message (with the empty-message fallback of line 221). -/
def processFile (fileName : String) (o : FileOutcome) : AnyProcessedDocument :=
  match o with
  | .classified e => mkDocument e fileName
  | .unknownType => mkFailureDoc fileName (orFallback unknownTypeMessage fallbackErrorMessage)
  | .failure msg => mkFailureDoc fileName (orFallback msg fallbackErrorMessage)

/-- Accumulated (pre-sort) result sequence of the batch loop,
`src/App.tsx` lines 139-227: one document per input file, in input
order. An input is the file's name paired with the oracle outcome of
the external calls on its bytes. -/
def runBatch (inputs : List (String × FileOutcome)) : List AnyProcessedDocument :=
  inputs.map fun p => processFile p.1 p.2

/-- Terminal sort pass of `src/App.tsx` lines 229-233: a stable
ascending sort by parsed sortable date (`Array.prototype.sort` is
stable, and the `NaN` the comparator produces on two `Infinity` keys is
treated as equality, preserving their relative order). -/
def sortDocs (docs : List AnyProcessedDocument) : List AnyProcessedDocument :=
  docs.mergeSort docLE

/-- Final published result of `handleProcessFiles`, `src/App.tsx` lines
126-243: the accumulated sequence after the terminal sort pass. -/
def handleProcessFiles (inputs : List (String × FileOutcome)) : List AnyProcessedDocument :=
  sortDocs (runBatch inputs)

/-- Success count of the completion summary, `src/App.tsx` line 240. -/
def successCount (allData : List AnyProcessedDocument) : Nat :=
  (allData.filter fun d => d.orden ≠ failureMarker).length

/-- Failure count of the completion summary, `src/App.tsx` line 241. -/
def failCount (allData : List AnyProcessedDocument) : Nat :=
  allData.length - successCount allData

/-! ## Retry controller, `handleRetryFile` of `src/App.tsx` lines 245-350 -/

/-- Embeds `handleRetryFile` of `src/App.tsx` lines 245-350, with the
captured `processedData` snapshot and the state at update time
coinciding (no other state mutation interleaves with the retry).
`files` is the uploaded file list (names); `o` is the oracle outcome of
re-running the external calls on the file's bytes. Out-of-range
`index`, or a failed lookup of the original file, leaves the sequence
unchanged (the lookup failure is the logged no-op of lines 250-254).
On success the slot is replaced by the newly normalized document
(lines 332-336); on a raised error or an `unknown` classification the
slot's document is copied and only its `error` field is overwritten
with the retry's message (lines 338-346). -/
def handleRetryFile (index : Nat) (processedData : List AnyProcessedDocument)
    (files : List String) (o : FileOutcome) : List AnyProcessedDocument :=
  match processedData[index]? with
  | none => processedData
  | some docToRetry =>
    match files.find? (fun n => n == docToRetry.originalFileName) with
    | none => processedData
    | some originalFile =>
      match o with
      | .classified e => processedData.set index (mkDocument e originalFile)
      | .unknownType =>
        processedData.set index
          (docToRetry.setError (orFallback retryUnknownMessage retryFallbackMessage))
      | .failure msg =>
        processedData.set index (docToRetry.setError (orFallback msg retryFallbackMessage))

/-- Session state shared by the pipeline and the retry controller: the
uploaded file list and the published result sequence (the `files` and
`processedData` React states of `src/App.tsx` lines 56-57). -/
structure AppState where
  files : List String
  processedData : List AnyProcessedDocument
deriving DecidableEq, Repr

/-- State transition a retry performs: `handleRetryFile` only ever calls
`setProcessedData`, never `setFiles`, so the file list is passed
through unchanged. -/
def retryStep (index : Nat) (o : FileOutcome) (s : AppState) : AppState :=
  { s with processedData := handleRetryFile index s.processedData s.files o }

/-! ## Field editing, `handleDataUpdate` of `src/App.tsx` lines 112-124 -/

/-- Dynamic field assignment `(itemToUpdate as any)[field] = value` of
`src/App.tsx` line 119, for the fields each variant declares; a field
name a variant does not declare leaves the document unchanged (in
JavaScript it would add a property invisible to every typed reader of
the union). -/
def setField (doc : AnyProcessedDocument) (field value : String) : AnyProcessedDocument :=
  match doc with
  | .workOrder d =>
    if field = "orden" then .workOrder { d with orden := value }
    else if field = "archivo" then .workOrder { d with archivo := value }
    else if field = "serie" then .workOrder { d with serie := value }
    else if field = "fechaRegistro" then .workOrder { d with fechaRegistro := value }
    else if field = "categoria" then .workOrder { d with categoria := value }
    else if field = "descripcion" then .workOrder { d with descripcion := value }
    else if field = "fechaCierre" then .workOrder { d with fechaCierre := value }
    else if field = "originalFileName" then .workOrder { d with originalFileName := value }
    else if field = "error" then .workOrder { d with error := some value }
    else doc
  | .supplyRequest d =>
    if field = "orden" then .supplyRequest { d with orden := value }
    else if field = "archivo" then .supplyRequest { d with archivo := value }
    else if field = "serie" then .supplyRequest { d with serie := value }
    else if field = "fechaRegistro" then .supplyRequest { d with fechaRegistro := value }
    else if field = "contador" then .supplyRequest { d with contador := value }
    else if field = "fechaEntrega" then .supplyRequest { d with fechaEntrega := value }
    else if field = "originalFileName" then .supplyRequest { d with originalFileName := value }
    else if field = "error" then .supplyRequest { d with error := some value }
    else doc
  | .uninstallation d =>
    if field = "orden" then .uninstallation { d with orden := value }
    else if field = "archivo" then .uninstallation { d with archivo := value }
    else if field = "serie" then .uninstallation { d with serie := value }
    else if field = "fecha" then .uninstallation { d with fecha := value }
    else if field = "contadorBN" then .uninstallation { d with contadorBN := value }
    else if field = "contadorColor" then .uninstallation { d with contadorColor := value }
    else if field = "contadorEscaner" then .uninstallation { d with contadorEscaner := value }
    else if field = "link" then .uninstallation { d with link := value }
    else if field = "comentarios" then .uninstallation { d with comentarios := value }
    else if field = "originalFileName" then .uninstallation { d with originalFileName := value }
    else if field = "error" then .uninstallation { d with error := some value }
    else doc
  | .installation d =>
    if field = "orden" then .installation { d with orden := value }
    else if field = "archivo" then .installation { d with archivo := value }
    else if field = "serie" then .installation { d with serie := value }
    else if field = "fecha" then .installation { d with fecha := value }
    else if field = "contadorBN" then .installation { d with contadorBN := value }
    else if field = "link" then .installation { d with link := value }
    else if field = "comentarios" then .installation { d with comentarios := value }
    else if field = "originalFileName" then .installation { d with originalFileName := value }
    else if field = "error" then .installation { d with error := some value }
    else doc

/-- Embeds `handleDataUpdate` of `src/App.tsx` lines 112-124.
`snapshot` is the `processedData` value captured by the `useCallback`
closure at render time, `prevData` the latest state at the moment the
functional update runs. The filtered modal view `dataForModal` is
computed from the captured `snapshot` (line 115 reads the outer
`processedData`, not `prevData`); the target position is then the first
index of `prevData` whose `originalFileName` matches the view's
`index`-th entry, and that slot gets the field assignment. When the
view has no `index`-th entry, `findIndex` compares every name against
`undefined` and returns `-1`, so nothing changes. -/
def handleDataUpdate (snapshot : List AnyProcessedDocument)
    (modalDocumentType : Option DocumentType) (index : Nat) (field value : String)
    (prevData : List AnyProcessedDocument) : List AnyProcessedDocument :=
  let dataForModal : List AnyProcessedDocument :=
    match modalDocumentType with
    | some t => snapshot.filter fun d => d.type == t
    | none => []
  match dataForModal[index]? with
  | none => prevData
  | some target =>
    match prevData.findIdx? (fun item : AnyProcessedDocument =>
        item.originalFileName == target.originalFileName) with
    | none => prevData
    | some originalIndex =>
      match prevData[originalIndex]? with
      | none => prevData
      | some itemToUpdate => prevData.set originalIndex (setField itemToUpdate field value)

/-! ## Export consumers, `src/App.tsx` lines 352-395 -/

/-- Per-type selection of `handleExportAll`, `src/App.tsx` lines
352-363: documents of the given type whose `orden` is not the failure
marker. -/
def exportSelection (t : DocumentType) (processedData : List AnyProcessedDocument) :
    List AnyProcessedDocument :=
  processedData.filter fun d => d.type == t && d.orden != failureMarker

/-- Entries of the renamed-file ZIP archive of `handleDownloadZip`,
`src/App.tsx` lines 365-379: documents of the given type whose `orden`
is not the failure marker (the inner check of line 373 re-tests the
same condition), each paired with the uploaded file found under its
`originalFileName` and stored under the name `archivo`. -/
def zipEntries (docType : DocumentType) (processedData : List AnyProcessedDocument)
    (files : List String) : List (String × String) :=
  let dataToZip := processedData.filter fun d => d.type == docType && d.orden != failureMarker
  (dataToZip.filter fun d => d.orden != failureMarker).filterMap fun d =>
    (files.find? (fun n => n == d.originalFileName)).map fun f => (d.archivo, f)

/-! ## Helper lemmas -/

/-- Reflexivity of the key comparison. -/
theorem keyLE_refl (k : Option Nat) : keyLE k k := by
  cases k <;> simp [keyLE]

/-- Transitivity of the key comparison. -/
theorem keyLE_trans (a b c : Option Nat) (h1 : keyLE a b) (h2 : keyLE b c) : keyLE a c := by
  cases a <;> cases b <;> cases c <;> simp_all [keyLE] <;> omega

/-- Totality of the key comparison. -/
theorem keyLE_total (a b : Option Nat) : keyLE a b || keyLE b a := by
  cases a <;> cases b <;> simp [keyLE] <;> omega

/-- Transitivity of the document comparison of the terminal sort. -/
theorem docLE_trans (a b c : AnyProcessedDocument) (h1 : docLE a b) (h2 : docLE b c) :
    docLE a c :=
  keyLE_trans _ _ _ h1 h2

/-- Totality of the document comparison of the terminal sort. -/
theorem docLE_total (a b : AnyProcessedDocument) : docLE a b || docLE b a :=
  keyLE_total _ _

/-- Overwriting `error` leaves `orden` unchanged. -/
theorem orden_setError (d : AnyProcessedDocument) (msg : String) :
    (d.setError msg).orden = d.orden := by
  cases d <;> rfl

/-- Overwriting `error` stores exactly the given message. -/
theorem error_setError (d : AnyProcessedDocument) (msg : String) :
    (d.setError msg).error = some msg := by
  cases d <;> rfl

/-- Overwriting `error` leaves `serie` unchanged. -/
theorem serie_setError (d : AnyProcessedDocument) (msg : String) :
    (d.setError msg).serie = d.serie := by
  cases d <;> rfl

/-- A string matched by one of the two-digit-triple patterns is non-empty
(it has exactly eight characters). -/
theorem ne_empty_of_matchTriple {sep : Char} {s : String} {v : Nat × Nat × Nat}
    (h : matchTwoDigitTriple sep s = some v) : s ≠ "" := by
  intro hs
  subst hs
  rw [show matchTwoDigitTriple sep "" = none from rfl] at h
  exact Option.noConfusion h

/-- A string whose two separator positions hold `/` cannot match the
`-`-separated pattern. -/
theorem matchTriple_slash_not_dash {s : String} {v : Nat × Nat × Nat}
    (h : matchTwoDigitTriple '/' s = some v) : matchTwoDigitTriple '-' s = none := by
  unfold matchTwoDigitTriple at h ⊢
  split at h
  next a b s1 c d s2 e f heq =>
    split at h
    next hcond =>
      simp only [Bool.and_eq_true, beq_iff_eq] at hcond
      simp [hcond.1]
    next => exact Option.noConfusion h
  next heq => rfl

/-- A string whose two separator positions hold `-` cannot match the
`/`-separated pattern. -/
theorem matchTriple_dash_not_slash {s : String} {v : Nat × Nat × Nat}
    (h : matchTwoDigitTriple '-' s = some v) : matchTwoDigitTriple '/' s = none := by
  unfold matchTwoDigitTriple at h ⊢
  split at h
  next a b s1 c d s2 e f heq =>
    split at h
    next hcond =>
      simp only [Bool.and_eq_true, beq_iff_eq] at hcond
      simp [hcond.1]
    next => exact Option.noConfusion h
  next heq => rfl

/-- A retry leaves the result sequence unchanged or replaces exactly
the slot at `index`. -/
theorem handleRetryFile_eq_or_set (index : Nat) (docs : List AnyProcessedDocument)
    (files : List String) (o : FileOutcome) :
    handleRetryFile index docs files o = docs ∨
    ∃ x, handleRetryFile index docs files o = docs.set index x := by
  unfold handleRetryFile
  split
  · exact Or.inl rfl
  · split
    · exact Or.inl rfl
    · cases o with
      | classified e => exact Or.inr ⟨_, rfl⟩
      | unknownType => exact Or.inr ⟨_, rfl⟩
      | failure msg => exact Or.inr ⟨_, rfl⟩

/-! ## Claim theorems -/

/-- C1: for every non-empty input file sequence, the batch pipeline
produces exactly one ProcessedDocument per input file (result length
equals input length), and the final published result sequence is
ordered ascending by the parsed sortable date. -/
theorem C1_batch_length_and_sorted (inputs : List (String × FileOutcome))
    (hne : inputs ≠ []) :
    (handleProcessFiles inputs).length = inputs.length ∧
    (handleProcessFiles inputs).Pairwise (fun a b => docLE a b) := by
  refine ⟨?_, ?_⟩
  · simp [handleProcessFiles, sortDocs, runBatch]
  · exact List.sorted_mergeSort docLE_trans docLE_total _

/-- Witness for C1 at a concrete one-file input. -/
theorem C1_witness :
    (handleProcessFiles [("a.pdf", FileOutcome.unknownType)]).length =
      ([("a.pdf", FileOutcome.unknownType)] : List (String × FileOutcome)).length ∧
    (handleProcessFiles [("a.pdf", FileOutcome.unknownType)]).Pairwise
      (fun a b => docLE a b) :=
  C1_batch_length_and_sorted [("a.pdf", FileOutcome.unknownType)] (by decide)

/-- C5: the terminal sort is stable: two documents of the accumulated
sequence with equal derived sort keys (in particular two documents with
unparseable or empty date strings, both mapping to `Infinity`) keep
their relative input order in the sorted output. -/
theorem C5_sort_stable (l : List AnyProcessedDocument) (a b : AnyProcessedDocument)
    (hkey : sortKey a = sortKey b) (hsub : [a, b].Sublist l) :
    [a, b].Sublist (sortDocs l) := by
  apply List.pair_sublist_mergeSort docLE_trans docLE_total _ hsub
  show docLE a b
  unfold docLE
  rw [hkey]
  exact keyLE_refl _

/-- Witness for C5: two failure sentinels (empty date strings, both
keys `Infinity`) in a three-document sequence stay in order. -/
theorem C5_witness :
    [mkFailureDoc "a.pdf" "e1", mkFailureDoc "b.pdf" "e2"].Sublist
      (sortDocs [mkFailureDoc "a.pdf" "e1",
                 processFile "c.pdf" FileOutcome.unknownType,
                 mkFailureDoc "b.pdf" "e2"]) :=
  C5_sort_stable _ (mkFailureDoc "a.pdf" "e1") (mkFailureDoc "b.pdf" "e2")
    (by decide) (by decide)

/-- C7: for every state, index and retry outcome, the retry changes the
result sequence only at that index — every other position is
structurally unchanged — and the input files list is not modified. -/
theorem C7_retry_frame (s : AppState) (index : Nat) (o : FileOutcome) (j : Nat)
    (hj : j ≠ index) :
    ((retryStep index o s).processedData)[j]? = s.processedData[j]? ∧
    (retryStep index o s).files = s.files := by
  refine ⟨?_, rfl⟩
  show (handleRetryFile index s.processedData s.files o)[j]? = s.processedData[j]?
  rcases handleRetryFile_eq_or_set index s.processedData s.files o with h | ⟨x, h⟩
  · rw [h]
  · rw [h]
    exact List.getElem?_set_ne (Ne.symm hj)

/-- Witness for C7 at a concrete two-document state. -/
theorem C7_witness :
    ((retryStep 0 (FileOutcome.failure "x")
        ⟨["a.pdf", "b.pdf"],
         [mkFailureDoc "a.pdf" "e1", mkFailureDoc "b.pdf" "e2"]⟩).processedData)[1]? =
      ([mkFailureDoc "a.pdf" "e1", mkFailureDoc "b.pdf" "e2"] :
        List AnyProcessedDocument)[1]? ∧
    (retryStep 0 (FileOutcome.failure "x")
        ⟨["a.pdf", "b.pdf"],
         [mkFailureDoc "a.pdf" "e1", mkFailureDoc "b.pdf" "e2"]⟩).files =
      ["a.pdf", "b.pdf"] :=
  C7_retry_frame ⟨["a.pdf", "b.pdf"],
    [mkFailureDoc "a.pdf" "e1", mkFailureDoc "b.pdf" "e2"]⟩ 0
    (FileOutcome.failure "x") 1 (by decide)

/-- C8: for every document type and extracted record, the derived export
filename `archivo` is `{identifier}.pdf` when the primary identifier
(`orden` for work orders and supply requests, `folio` for installations
and uninstallations) is non-empty and the original uploaded filename
when it is empty; for installation and uninstallation documents the
`link` field equals the derived `archivo`. Both the batch pipeline and
the retry success path build their documents with `mkDocument`. -/
theorem C8_archivo_derivation (e : ExtractionData) (name : String) :
    (mkDocument e name).archivo =
      (if identifierOf e = "" then name else identifierOf e ++ ".pdf") ∧
    (mkDocument e name).linkOf =
      (match e with
       | .uninstallation _ => some ((mkDocument e name).archivo)
       | .installation _ => some ((mkDocument e name).archivo)
       | _ => none) := by
  cases e <;>
    simp [mkDocument, identifierOf, AnyProcessedDocument.archivo, AnyProcessedDocument.linkOf]

/-- C2 counterexample: on a file the classifier tags `unknown`, the
sentinel's `error` holds the Spanish literal thrown at `src/App.tsx`
line 149, not the message "document type not recognized" the claim
states. -/
theorem C2_counterexample :
    (processFile "a.pdf" FileOutcome.unknownType).error = some unknownTypeMessage ∧
    unknownTypeMessage ≠ "document type not recognized" := by
  constructor
  · rfl
  · decide

/-- C2 (amended): for every file on which the classifier returns
`unknown` or the extractor raises, the batch pipeline appends a sentinel
ProcessedDocument with `type: workOrder`, `orden` equal to
"Fallo de Procesamiento" and `error` populated with the failure's
message — for the unknown-type case the literal
"No se pudo reconocer el tipo de documento." — and all remaining files
are still processed: the batch yields one record per input file, each
computed from its own file alone. -/
theorem C2_failure_sentinel_and_no_abort (inputs : List (String × FileOutcome))
    (name msg : String) (hmsg : msg ≠ "") :
    (processFile name FileOutcome.unknownType).type = DocumentType.workOrder ∧
    (processFile name FileOutcome.unknownType).orden = failureMarker ∧
    (processFile name FileOutcome.unknownType).error = some unknownTypeMessage ∧
    (processFile name (FileOutcome.failure msg)).type = DocumentType.workOrder ∧
    (processFile name (FileOutcome.failure msg)).orden = failureMarker ∧
    (processFile name (FileOutcome.failure msg)).error = some msg ∧
    (runBatch inputs).length = inputs.length ∧
    (∀ j : Nat, (runBatch inputs)[j]? =
      (inputs[j]?).map fun p : String × FileOutcome => processFile p.1 p.2) := by
  refine ⟨rfl, rfl, ?_, rfl, rfl, ?_, ?_, ?_⟩
  · rfl
  · simp [processFile, mkFailureDoc, orFallback, hmsg, AnyProcessedDocument.error]
  · simp [runBatch]
  · intro j
    simp [runBatch]

/-- Witness for C2 at a concrete input batch. -/
theorem C2_witness :
    (processFile "a.pdf" FileOutcome.unknownType).type = DocumentType.workOrder ∧
    (processFile "a.pdf" FileOutcome.unknownType).orden = failureMarker ∧
    (processFile "a.pdf" FileOutcome.unknownType).error = some unknownTypeMessage ∧
    (processFile "a.pdf" (FileOutcome.failure "boom")).type = DocumentType.workOrder ∧
    (processFile "a.pdf" (FileOutcome.failure "boom")).orden = failureMarker ∧
    (processFile "a.pdf" (FileOutcome.failure "boom")).error = some "boom" ∧
    (runBatch [("a.pdf", FileOutcome.failure "boom"), ("b.pdf", FileOutcome.unknownType)]).length =
      ([("a.pdf", FileOutcome.failure "boom"), ("b.pdf", FileOutcome.unknownType)] :
        List (String × FileOutcome)).length ∧
    (∀ j : Nat, (runBatch [("a.pdf", FileOutcome.failure "boom"), ("b.pdf", FileOutcome.unknownType)])[j]? =
      (([("a.pdf", FileOutcome.failure "boom"), ("b.pdf", FileOutcome.unknownType)] :
        List (String × FileOutcome))[j]?).map fun p : String × FileOutcome => processFile p.1 p.2) :=
  C2_failure_sentinel_and_no_abort
    [("a.pdf", FileOutcome.failure "boom"), ("b.pdf", FileOutcome.unknownType)]
    "a.pdf" "boom" (by decide)

/-- Successfully processed work order used by the C6 counterexample:
a document with real data and no error. -/
def c6doc : AnyProcessedDocument :=
  .workOrder {
    orden := "B7"
    archivo := "B7.pdf"
    serie := "S6"
    fechaRegistro := "01/15/24"
    categoria := "Cat"
    descripcion := "Desc"
    fechaCierre := ""
    originalFileName := "b.pdf" }

/-- C6 counterexample: when a retry of a successfully processed document
fails, the slot is not replaced by a new failure record — the previous
record's fields (`orden`, `serie`, ...) are all retained and only
`error` is overwritten, so the result still carries the old data and
its `orden` is not even the failure marker. -/
theorem C6_counterexample :
    handleRetryFile 0 [c6doc] ["b.pdf"] (FileOutcome.failure "boom2") =
      [c6doc.setError "boom2"] ∧
    (c6doc.setError "boom2").error = some "boom2" ∧
    (c6doc.setError "boom2").orden = "B7" ∧
    (c6doc.setError "boom2").serie = "S6" ∧
    (c6doc.setError "boom2").orden ≠ failureMarker := by
  refine ⟨rfl, rfl, rfl, rfl, by decide⟩

/-- C6 (amended): when a retry of `documents[index]` fails, the slot is
replaced by a copy of its previous record in which only the `error`
field is overwritten with the retry's own error message; the previous
error, if any, is discarded (not accumulated or chained), while every
other field of the previous record is retained. -/
theorem C6_retry_failure_overwrites_error_only (index : Nat)
    (docs : List AnyProcessedDocument) (files : List String) (msg : String)
    (docToRetry : AnyProcessedDocument) (f : String)
    (hdoc : docs[index]? = some docToRetry)
    (hfile : files.find? (fun n => n == docToRetry.originalFileName) = some f)
    (hmsg : msg ≠ "") :
    handleRetryFile index docs files (FileOutcome.failure msg) =
      docs.set index (docToRetry.setError msg) ∧
    (docToRetry.setError msg).error = some msg ∧
    (docToRetry.setError msg).orden = docToRetry.orden ∧
    (docToRetry.setError msg).serie = docToRetry.serie := by
  refine ⟨?_, error_setError _ _, orden_setError _ _, serie_setError _ _⟩
  simp [handleRetryFile, hdoc, hfile, orFallback, hmsg]

/-- Witness for C6 at a concrete retry of a failure sentinel. -/
theorem C6_witness :
    handleRetryFile 0 [mkFailureDoc "a.pdf" "old"] ["a.pdf"] (FileOutcome.failure "new") =
      [mkFailureDoc "a.pdf" "old"].set 0 ((mkFailureDoc "a.pdf" "old").setError "new") ∧
    ((mkFailureDoc "a.pdf" "old").setError "new").error = some "new" ∧
    ((mkFailureDoc "a.pdf" "old").setError "new").orden = (mkFailureDoc "a.pdf" "old").orden ∧
    ((mkFailureDoc "a.pdf" "old").setError "new").serie = (mkFailureDoc "a.pdf" "old").serie :=
  C6_retry_failure_overwrites_error_only 0 [mkFailureDoc "a.pdf" "old"] ["a.pdf"] "new"
    (mkFailureDoc "a.pdf" "old") "a.pdf" (by decide) (by decide) (by decide)

/-- Work order of file `a.pdf` as present in the render-time snapshot of
the C9 scenario (before a retry reclassified the file). -/
def c9docA : AnyProcessedDocument :=
  .workOrder {
    orden := "A1"
    archivo := "A1.pdf"
    serie := "SA"
    fechaRegistro := ""
    categoria := ""
    descripcion := ""
    fechaCierre := ""
    originalFileName := "a.pdf" }

/-- Work order of file `b.pdf`, unchanged between snapshot and current
state in the C9 scenario. -/
def c9docB : AnyProcessedDocument :=
  .workOrder {
    orden := "B1"
    archivo := "B1.pdf"
    serie := "SB"
    fechaRegistro := ""
    categoria := ""
    descripcion := ""
    fechaCierre := ""
    originalFileName := "b.pdf" }

/-- Supply request that replaced `c9docA` in the current state of the
C9 scenario (file `a.pdf` was reclassified by a completed retry). -/
def c9docC : AnyProcessedDocument :=
  .supplyRequest {
    orden := "C1"
    archivo := "C1.pdf"
    serie := "SC"
    fechaRegistro := ""
    contador := ""
    fechaEntrega := ""
    originalFileName := "a.pdf" }

/-- C9: the field edit resolves its target through the render-time
snapshot, not the latest state. In the scenario below the work-order
modal view computed from the current state maps index 0 to the `b.pdf`
work order, but `handleDataUpdate` — whose `dataForModal` is computed
from the captured snapshot — modifies the `a.pdf` document instead,
which in the current state is a supply request, not even a member of
the view the edit was issued from. -/
theorem C9_stale_snapshot_resolution :
    (([c9docC, c9docB].filter fun d => d.type == DocumentType.workOrder))[0]? =
      some c9docB ∧
    handleDataUpdate [c9docA, c9docB] (some DocumentType.workOrder) 0 "serie" "X"
        [c9docC, c9docB] =
      [setField c9docC "serie" "X", c9docB] ∧
    (setField c9docC "serie" "X").originalFileName = "a.pdf" ∧
    c9docB.originalFileName = "b.pdf" ∧
    (setField c9docC "serie" "X").type ≠ DocumentType.workOrder := by
  refine ⟨rfl, rfl, rfl, rfl, by decide⟩

/-- Work-order extraction whose `orden` happens to equal the literal
failure marker, used by C10. -/
def c10extraction : ExtractedWorkOrderData :=
  { orden := "Fallo de Procesamiento"
    serie := "S"
    fechaRegistro := "01/15/24"
    categoria := "Cat"
    descripcion := "Desc"
    fechaCierre := "" }

/-- C10: a document whose classification and extraction both succeed but
whose extracted `orden` equals the literal failure marker has no
`error`, yet every consumer treats it as failed: the batch summary
counts it as a failure, and it is excluded from the Excel export
selection and from the renamed-file ZIP entries. -/
theorem C10_marker_collision :
    (processFile "a.pdf" (FileOutcome.classified (ExtractionData.workOrder c10extraction))).error =
      none ∧
    (processFile "a.pdf" (FileOutcome.classified (ExtractionData.workOrder c10extraction))).orden =
      failureMarker ∧
    successCount
      [processFile "a.pdf" (FileOutcome.classified (ExtractionData.workOrder c10extraction))] = 0 ∧
    failCount
      [processFile "a.pdf" (FileOutcome.classified (ExtractionData.workOrder c10extraction))] = 1 ∧
    exportSelection DocumentType.workOrder
      [processFile "a.pdf" (FileOutcome.classified (ExtractionData.workOrder c10extraction))] = [] ∧
    zipEntries DocumentType.workOrder
      [processFile "a.pdf" (FileOutcome.classified (ExtractionData.workOrder c10extraction))]
      ["a.pdf"] = [] := by
  refine ⟨rfl, rfl, ?_, ?_, ?_, ?_⟩ <;> decide

/-- Biconditional the C3 claim asserts of every published document:
`error` is present exactly when `orden` is the literal failure marker. -/
@[reducible] def errorMatchesMarker (d : AnyProcessedDocument) : Prop :=
  d.error.isSome = true ↔ d.orden = failureMarker

/-- Side condition under which a retry outcome preserves
`errorMatchesMarker`: a successful re-extraction must not itself return
the marker as identifier, and a failing retry must target a slot that
already holds a marker record (the only slots the UI offers retry
for). -/
@[reducible] def retryOutcomePreserves (o : FileOutcome)
    (docs : List AnyProcessedDocument) (index : Nat) : Prop :=
  match o with
  | .classified e => identifierOf e ≠ failureMarker
  | _ => (docs[index]?.all fun d => d.orden == failureMarker) = true

/-- A normalized document with a non-marker identifier satisfies the
error/marker biconditional (its `error` is absent). -/
theorem errorMatchesMarker_mkDocument (e : ExtractionData) (name : String)
    (hne : identifierOf e ≠ failureMarker) : errorMatchesMarker (mkDocument e name) := by
  cases e <;>
    simp_all [mkDocument, errorMatchesMarker, AnyProcessedDocument.error,
      AnyProcessedDocument.orden, identifierOf]

/-- C3 counterexample: the retry failure branch sets `error` without
touching `orden`, so retrying a successfully processed document (one
whose `orden` is real data) and failing produces a published document
with `error` present and `orden` different from the failure marker,
violating the biconditional the claim asserts for any index retry is
invoked on. -/
theorem C3_counterexample :
    (handleRetryFile 0 [c6doc] ["b.pdf"] (FileOutcome.failure "boom"))[0]? =
      some (c6doc.setError "boom") ∧
    (c6doc.setError "boom").error.isSome = true ∧
    (c6doc.setError "boom").orden ≠ failureMarker := by
  refine ⟨rfl, rfl, by decide⟩

/-- C3 (amended): `error` is present iff `orden` equals the literal
failure marker for every document the batch pass produces from an
outcome whose extracted identifier is not itself the marker, and the
biconditional is preserved by retry provided a successful retry's
extracted identifier is not the marker and a failing retry targets a
slot already holding a marker record. -/
theorem C3_error_iff_marker (name : String) (o retryOutcome : FileOutcome)
    (index : Nat) (docs : List AnyProcessedDocument) (files : List String)
    (h1 : ∀ e, o = FileOutcome.classified e → identifierOf e ≠ failureMarker)
    (h2 : retryOutcomePreserves retryOutcome docs index)
    (hdocs : ∀ d ∈ docs, errorMatchesMarker d) :
    errorMatchesMarker (processFile name o) ∧
    ∀ d ∈ handleRetryFile index docs files retryOutcome, errorMatchesMarker d := by
  constructor
  · cases o with
    | classified e => exact errorMatchesMarker_mkDocument e name (h1 e rfl)
    | unknownType =>
      simp [processFile, mkFailureDoc, errorMatchesMarker,
        AnyProcessedDocument.error, AnyProcessedDocument.orden]
    | failure msg =>
      simp [processFile, mkFailureDoc, errorMatchesMarker,
        AnyProcessedDocument.error, AnyProcessedDocument.orden]
  · intro d hd
    unfold handleRetryFile at hd
    split at hd
    · exact hdocs d hd
    next docToRetry hidx =>
      split at hd
      · exact hdocs d hd
      next f hfind =>
        have hmark : ∀ msg, d = docToRetry.setError msg → docToRetry.orden = failureMarker →
            errorMatchesMarker d := by
          intro msg hdm hm
          subst hdm
          simp [errorMatchesMarker, error_setError, orden_setError, hm]
        cases retryOutcome with
        | classified e =>
          rcases List.mem_or_eq_of_mem_set hd with h | h
          · exact hdocs d h
          · subst h
            exact errorMatchesMarker_mkDocument e f h2
        | unknownType =>
          rcases List.mem_or_eq_of_mem_set hd with h | h
          · exact hdocs d h
          · refine hmark _ h ?_
            have h2' : (docs[index]?.all fun x => x.orden == failureMarker) = true := h2
            rw [hidx] at h2'
            simpa using h2'
        | failure msg =>
          rcases List.mem_or_eq_of_mem_set hd with h | h
          · exact hdocs d h
          · refine hmark _ h ?_
            have h2' : (docs[index]?.all fun x => x.orden == failureMarker) = true := h2
            rw [hidx] at h2'
            simpa using h2'

/-- Witness for C3 at a concrete state: an unknown-type batch failure
and a failing retry of a sentinel slot. -/
theorem C3_witness :
    errorMatchesMarker (processFile "n.pdf" FileOutcome.unknownType) ∧
    ∀ d ∈ handleRetryFile 0 [mkFailureDoc "a.pdf" "e"] ["a.pdf"] (FileOutcome.failure "x"),
      errorMatchesMarker d :=
  C3_error_iff_marker "n.pdf" FileOutcome.unknownType (FileOutcome.failure "x") 0
    [mkFailureDoc "a.pdf" "e"] ["a.pdf"]
    (fun e h => nomatch h) (by decide) (by decide)

/-- C4: the sortable-date parser returns `Infinity` (here `none`) for
the empty string, for every string matching neither of the two literal
patterns, and for every matching string whose calendar date is invalid;
a string matching `MM/DD/YY` or `DD-MM-YY` with a valid calendar date
yields the timestamp of `20YY-MM-DD`; and "01/15/24" yields a strictly
smaller key than "20-01-24" (Jan 15 2024 vs Jan 20 2024). -/
theorem C4_parseSortableDate_spec :
    parseSortableDate "" = none ∧
    (∀ s : String, matchTwoDigitTriple '/' s = none → matchTwoDigitTriple '-' s = none →
      parseSortableDate s = none) ∧
    (∀ (s : String) (mm dd yy : Nat), matchTwoDigitTriple '/' s = some (mm, dd, yy) →
      parseSortableDate s =
        if isValidDate (2000 + yy) mm dd then some (utcTimestamp (2000 + yy) mm dd)
        else none) ∧
    (∀ (s : String) (dd mm yy : Nat), matchTwoDigitTriple '-' s = some (dd, mm, yy) →
      parseSortableDate s =
        if isValidDate (2000 + yy) mm dd then some (utcTimestamp (2000 + yy) mm dd)
        else none) ∧
    parseSortableDate "01/15/24" = some (utcTimestamp 2024 1 15) ∧
    parseSortableDate "20-01-24" = some (utcTimestamp 2024 1 20) ∧
    utcTimestamp 2024 1 15 < utcTimestamp 2024 1 20 := by
  refine ⟨rfl, ?_, ?_, ?_, by decide, by decide, by decide⟩
  · intro s h1 h2
    unfold parseSortableDate
    rw [h1, h2]
    split <;> rfl
  · intro s mm dd yy h
    have hne := ne_empty_of_matchTriple h
    have hnd := matchTriple_slash_not_dash h
    unfold parseSortableDate
    rw [if_neg hne, h, hnd]
  · intro s dd mm yy h
    have hne := ne_empty_of_matchTriple h
    have hns := matchTriple_dash_not_slash h
    unfold parseSortableDate
    rw [if_neg hne, hns, h]

/-- Witness for C4 at concrete strings: a non-matching string and a
pattern-matching string with an invalid calendar date both yield
`Infinity`. -/
theorem C4_witness :
    parseSortableDate "hello" = none ∧
    parseSortableDate "02/30/24" =
      (if isValidDate (2000 + 24) 2 30 then some (utcTimestamp (2000 + 24) 2 30)
       else none) :=
  ⟨C4_parseSortableDate_spec.2.1 "hello" (by decide) (by decide),
   C4_parseSortableDate_spec.2.2.1 "02/30/24" 2 30 24 (by decide)⟩

end PdfPipeline
